import Mathlib

/-!
# Verification of `bzt/modules/molotov.py` (Molotov executor for Taurus)

Shallow embedding of the Molotov executor module.  Python methods become
Lean functions; the executor's mutable fields become an explicit record
threaded through the state-passing methods; Python exceptions become
`Except` results; the file system and the child process are passed in as
explicit environments.  Machine-level details (actual process spawning,
real files) are abstracted into those environments; all decision logic is
translated line by line from the source.
-/

set_option maxHeartbeats 1000000

namespace MolotovSpec

/-- `bzt.TaurusConfigError`: a configuration error carrying a message. -/
structure TaurusConfigError where
  message : String
deriving DecidableEq, Repr

/-- `bzt.ToolError`: a tool-execution error carrying a message and optional
diagnostics (the bzt exception takes `diagnostics=None` by default). -/
structure ToolError where
  message : String
  diagnostics : Option (List String)
deriving DecidableEq, Repr

/-- A Python `OSError`/`FileNotFoundError` raised by `open(name)` on a
missing file; carries the offending file name. -/
structure IoError where
  name : String
deriving DecidableEq, Repr

/-! ## Python `str.strip()` -/

/-- Leading and trailing whitespace removal on the character list:
`l.dropWhile ws`, then the same from the right via `reverse`. -/
def pyStripL (l : List Char) : List Char :=
  (((l.dropWhile Char.isWhitespace).reverse.dropWhile Char.isWhitespace)).reverse

/-- Python's `str.strip()`: remove leading and trailing whitespace. -/
def pyStrip (s : String) : String :=
  ⟨pyStripL s.data⟩

/-! ## Durations

`bzt.utils.dehumanize_time` is imported by the module but is not part of
this repository snapshot's `src/`. -/

/-- A unit of a humanized duration component (`ms`, `s`, `m`, `h`, `d`). -/
inductive TimeUnit where
  | ms | s | m | h | d
deriving DecidableEq, Repr

/-- How many seconds one unit is worth (`ms` is a thousandth). -/
def TimeUnit.seconds : TimeUnit → ℚ
  | .ms => 1 / 1000
  | .s => 1
  | .m => 60
  | .h => 3600
  | .d => 86400

/-- A humanized duration such as `"30s"` or `"1m5s"`, as its parsed list of
(value, unit) components; the empty list stands for an unset (Python-falsy)
value such as `None` or `""`. -/
def HumanTime := List (ℚ × TimeUnit)

instance : DecidableEq HumanTime := by
  unfold HumanTime
  infer_instance

/-- Modelled from the spec: `dehumanize_time` (from `bzt.utils`, not under
`src/`) converts a humanized duration such as `"30s"` or `"1m5s"` into
seconds (`"30s"` ↦ 30, `"1m5s"` ↦ 65); an unset value yields 0. -/
def dehumanize_time (t : HumanTime) : ℚ :=
  (t.map fun p => p.1 * p.2.seconds).sum

/-! ## Load specification -/

/-- The load specification returned by `self.get_load()`: concurrency
(`None` or an integer), ramp-up and hold.  `ramp_up` is kept as its
dehumanized number of seconds (the code only tests its Python truthiness,
i.e. whether it is non-zero; `None` behaves as 0); `hold` is kept in its
humanized form because the code passes it to `dehumanize_time`, and its
Python truthiness is emptiness of that form. -/
structure LoadSpec where
  concurrency : Option ℕ
  ramp_up : ℚ
  hold : HumanTime

/-! ## Command building (`MolotovExecutor.startup`, lines 63–90) -/

/-- The command line built by `startup` (source lines 66–85), as a function
of the tool path (`self.tool_path`, set by `prepare`), the load spec and
the already-resolved script path.  Mirrors the source's sequential
accumulation of `cmdline` and `duration`. -/
def build_cmdline (tool_path : String) (load : LoadSpec) (script : String) :
    List String :=
  let cmdline := [tool_path]
  let cmdline := cmdline ++
    (match load.concurrency with
     | some c => ["--workers", toString c]
     | none => [])
  let duration : ℤ := 0
  let (duration, cmdline) :=
    if load.ramp_up ≠ 0 then
      let ramp_up : ℤ := ⌈dehumanize_time load.hold⌉
      (duration + ramp_up, cmdline ++ ["--ramp-up", toString ramp_up])
    else (duration, cmdline)
  let duration :=
    if load.hold ≠ ([] : HumanTime) then
      let hold : ℤ := ⌈dehumanize_time load.hold⌉
      duration + hold
    else duration
  let cmdline := cmdline ++ ["--duration", toString duration]
  let cmdline := cmdline ++ ["--use-extension=bzt.resources.molotov_ext"]
  cmdline ++ [script]

/-- The running total that `startup` passes to `--duration`: the ramp-up
contribution (itself `ceil` of the *hold* duration, as in source line 75)
plus the hold contribution. -/
def total_duration (load : LoadSpec) : ℤ :=
  (if load.ramp_up ≠ 0 then ⌈dehumanize_time load.hold⌉ else 0) +
    (if load.hold ≠ ([] : HumanTime) then ⌈dehumanize_time load.hold⌉ else 0)

/-! ## Executor state -/

/-- A capture-file handle: the name it was opened under and whether it has
been closed (`post_process` closes handles). -/
structure FileHandle where
  name : String
  closed : Bool
deriving DecidableEq, Repr

/-- A handle to the spawned child process; `exit_status` is what
`process.poll()` currently reports: `none` while the child still runs, the
exit code once it has exited (and from then on forever). -/
structure Proc where
  exit_status : Option ℤ
deriving DecidableEq, Repr

/-- `process.poll()`: the non-blocking exit-status query. -/
def Proc.poll (p : Proc) : Option ℤ :=
  p.exit_status

/-- The mutable fields `MolotovExecutor.__init__` sets on `self` (source
lines 31–38).  All start out `None`. -/
structure MolotovExecutor where
  process : Option Proc
  report_file_name : Option String
  stdout_file : Option FileHandle
  stderr_file : Option FileHandle
  tool_path : Option String
deriving DecidableEq, Repr

/-- The state `__init__` leaves behind: every field `None`. -/
def molotov_init : MolotovExecutor :=
  { process := none, report_file_name := none, stdout_file := none,
    stderr_file := none, tool_path := none }

/-- The file system visible to the executor: maps a file name to its
contents, or `none` when no such file exists. -/
def FS := String → Option String

/-- Python `open(name)` in read mode: the contents on success, an
`IoError` when the file does not exist. -/
def fs_open (fs : FS) (name : String) : Except IoError String :=
  match fs name with
  | some contents => .ok contents
  | none => .error ⟨name⟩

/-- The scenario as far as this module reads it: an optional `script`
entry. -/
structure Scenario where
  script : Option String

/-- The engine services the module uses: `engine.find_file`, which resolves
a configured script path to a concrete one. -/
structure Engine where
  find_file : String → String

/-- `MolotovExecutor._get_script` (source lines 40–43):
`scenario.get("script", TaurusConfigError(...))` raises the supplied
`TaurusConfigError` when the key is absent (the raising `get` lives in
`bzt.utils.BetterDict`, outside `src/`; the spec: "if no script is
configured in the scenario, fail with a configuration error"); otherwise
the script is resolved through `engine.find_file`. -/
def _get_script (eng : Engine) (sc : Scenario) : Except TaurusConfigError String :=
  match sc.script with
  | some script => .ok (eng.find_file script)
  | none => .error ⟨"You must provide script for Molotov"⟩

/-- What a successful `startup` produces: the command line handed to
`self.execute`, the child environment (`report_file_name` may still be the
`None` from `__init__`), and the updated executor state. -/
structure StartupOk where
  cmdline : List String
  env : List (String × Option String)
  state : MolotovExecutor
deriving Repr

/-- `MolotovExecutor.startup` (source lines 63–90) for a prepared executor
whose `self.tool_path` is `tool_path`.  Builds the command line, resolves
the script (raising `TaurusConfigError` when it is missing, before any
process is spawned), sets the report environment variable and records the
freshly spawned process (`new_proc`, the handle `self.execute` returns) in
the state.  The source resolves the script after assembling the flags;
flag assembly is pure, so resolving first is observationally the same. -/
def startup (eng : Engine) (load : LoadSpec) (sc : Scenario) (tool_path : String)
    (new_proc : Proc) (st : MolotovExecutor) : Except TaurusConfigError StartupOk :=
  match _get_script eng sc with
  | .error e => .error e
  | .ok script =>
      .ok { cmdline := build_cmdline tool_path load script
            env := [("MOLOTOV_TAURUS_REPORT", st.report_file_name)]
            state := { st with process := some new_proc } }

/-! ## Diagnostics (`get_error_diagnostics`, source lines 117–129) -/

/-- One branch of `get_error_diagnostics`: when the handle is present, open
its capture file, strip the contents, and append `label ++ contents` to
the diagnostics if anything non-whitespace remains (the source tests
`contents.strip()` on the already-stripped `contents`). -/
def diag_block (fs : FS) (fh : Option FileHandle) (label : String)
    (diagnostics : List String) : Except IoError (List String) :=
  match fh with
  | none => .ok diagnostics
  | some handle =>
      match fs_open fs handle.name with
      | .error e => .error e
      | .ok raw =>
          let contents := pyStrip raw
          if pyStrip contents ≠ "" then .ok (diagnostics ++ [label ++ contents])
          else .ok diagnostics

/-- `MolotovExecutor.get_error_diagnostics` (source lines 117–129): read
back both capture files (stdout first), collecting the labelled non-empty
ones.  The method assigns no field, so the state comes back unchanged in
the result pair. -/
def get_error_diagnostics (fs : FS) (st : MolotovExecutor) :
    Except IoError (List String × MolotovExecutor) :=
  match diag_block fs st.stdout_file "molotov STDOUT:\n" [] with
  | .error e => .error e
  | .ok diagnostics =>
      match diag_block fs st.stderr_file "molotov STDERR:\n" diagnostics with
      | .error e => .error e
      | .ok diagnostics => .ok (diagnostics, st)

/-! ## Polling (`check`, source lines 92–98) -/

/-- The ways `check` can raise: `poll` on the `None` process left by
`__init__` (an `AttributeError` in Python), an I/O error while reading a
capture file for diagnostics, or the `ToolError` for a non-zero exit. -/
inductive CheckError where
  | attr : CheckError
  | io : IoError → CheckError
  | tool : ToolError → CheckError
deriving DecidableEq, Repr

/-- `MolotovExecutor.check` (source lines 92–98): poll the process; still
running yields `false`, exit code 0 yields `true`, a non-zero exit raises
`ToolError` with the code in the message and `get_error_diagnostics()` as
diagnostics.  No field is assigned, so the state comes back unchanged. -/
def check (fs : FS) (st : MolotovExecutor) :
    Except CheckError (Bool × MolotovExecutor) :=
  match st.process with
  | none => .error .attr
  | some p =>
      match p.poll with
      | none => .ok (false, st)
      | some ret_code =>
          if ret_code ≠ 0 then
            match get_error_diagnostics fs st with
            | .error e => .error (.io e)
            | .ok (diag, _) =>
                .error (.tool ⟨"molotov exited with non-zero code: " ++ toString ret_code,
                               some diag⟩)
          else .ok (true, st)

/-! ## Tool probe (`Molotov`, source lines 135–150) -/

/-- What spawning `[tool_path, "-h"]` via `bzt.utils.shell_exec` can do:
succeed, or fail with one of the two exception classes the probe catches
(`subprocess.CalledProcessError`, or `OSError` for a missing or
non-executable binary). -/
inductive LaunchOutcome where
  | ok : LaunchOutcome
  | calledProcessError : LaunchOutcome
  | osError : LaunchOutcome
deriving DecidableEq, Repr

/-- The `Molotov` tool wrapper (source lines 135–139): it keeps the tool
path. -/
structure Molotov where
  tool_path : String
deriving DecidableEq, Repr

/-- `Molotov.check_if_installed` (source lines 141–147): try to launch
`<path> -h`; any caught launch failure means "not installed" (`false`)
rather than a propagated error.  `launch` is the ambient OS behaviour for
spawning a given argv. -/
def check_if_installed (launch : List String → LaunchOutcome) (tool : Molotov) : Bool :=
  match launch [tool.tool_path, "-h"] with
  | .calledProcessError => false
  | .osError => false
  | .ok => true

/-- `Molotov.install` (source lines 149–150): always raises. -/
def install (_tool : Molotov) : Except ToolError Unit :=
  .error ⟨"You must install molotov tool to use it", none⟩

/-- `MolotovExecutor.install_required_tools` (source lines 109–115), the
probe-then-install path `prepare` runs: resolve the tool path from the
settings (default `"molotov"`), and when the probe fails, call `install`,
whose error propagates; otherwise return the path. -/
def install_required_tools (launch : List String → LaunchOutcome)
    (settings_path : Option String) : Except ToolError String :=
  let tool_path := settings_path.getD "molotov"
  let tool : Molotov := { tool_path := tool_path }
  if check_if_installed launch tool then .ok tool_path
  else
    match install tool with
    | .error e => .error e
    | .ok _ => .ok tool_path

/-! ## Concrete runs used as witnesses -/

/-- Load spec with concurrency 10, ramp-up 0 and hold `"30s"`. -/
def load_c5 : LoadSpec :=
  { concurrency := some 10, ramp_up := 0, hold := [((30 : ℚ), TimeUnit.s)] }

/-- Load spec with no concurrency, a non-zero ramp-up and hold `"30s"`. -/
def load_w1 : LoadSpec :=
  { concurrency := none, ramp_up := 1, hold := [((30 : ℚ), TimeUnit.s)] }

/-- An engine that resolves script paths to themselves. -/
def eng0 : Engine := { find_file := fun s => s }

/-- A scenario with no `script` entry. -/
def sc_none : Scenario := { script := none }

/-- A scenario whose script is `"test.py"`. -/
def sc_test : Scenario := { script := some "test.py" }

/-- A child process that has not exited yet. -/
def proc_running : Proc := { exit_status := none }

/-- A child process that exited with code 0. -/
def proc_zero : Proc := { exit_status := some 0 }

/-- A child process that exited with code 1. -/
def proc_one : Proc := { exit_status := some 1 }

/-- The stdout capture-file handle of the example run. -/
def fh_out : FileHandle := { name := "molotov.out", closed := false }

/-- The stderr capture-file handle of the example run. -/
def fh_err : FileHandle := { name := "molotov.err", closed := false }

/-- A prepared-and-started executor state around the given process. -/
def st_with (p : Proc) : MolotovExecutor :=
  { process := some p, report_file_name := some "molotov-report.csv",
    stdout_file := some fh_out, stderr_file := some fh_err,
    tool_path := some "molotov" }

/-- A file system with no files at all. -/
def fs_empty : FS := fun _ => none

/-- A file system where both capture files hold only whitespace. -/
def fs_ws : FS := fun n =>
  if n = "molotov.out" then some " \n " else if n = "molotov.err" then some "\t" else none

/-- A file system where stdout captured nothing and stderr captured
`"boom"`. -/
def fs_boom : FS := fun n =>
  if n = "molotov.out" then some "" else if n = "molotov.err" then some "boom" else none

/-- An OS in which every spawn fails with `OSError` (no binary). -/
def launch_fail : List String → LaunchOutcome := fun _ => .osError

/-- The tool wrapper over the default path `"molotov"`. -/
def molotov_default : Molotov := { tool_path := "molotov" }

/-! ## Helper lemmas -/

lemma dropWhile_cons_false {α : Type} (p : α → Bool) (a : α) (t : List α)
    (h : p a = false) : List.dropWhile p (a :: t) = a :: t := by
  simp [List.dropWhile_cons, h]

lemma dropWhile_eq_cons {α : Type} (p : α → Bool) :
    ∀ (l : List α) (x : α) (t : List α), List.dropWhile p l = x :: t →
      (∃ s, l = s ++ x :: t) ∧ p x = false := by
  intro l
  induction l with
  | nil => intro x t h; simp [List.dropWhile] at h
  | cons a r ih =>
      intro x t h
      cases hpa : p a with
      | true =>
          rw [List.dropWhile_cons, if_pos hpa] at h
          obtain ⟨⟨s, hs⟩, hx⟩ := ih x t h
          exact ⟨⟨a :: s, by simp [hs]⟩, hx⟩
      | false =>
          rw [List.dropWhile_cons, if_neg (by simp [hpa])] at h
          injection h with h1 h2
          subst h1; subst h2
          exact ⟨⟨[], by simp⟩, hpa⟩

lemma pyStripL_idem (l : List Char) : pyStripL (pyStripL l) = pyStripL l := by
  unfold pyStripL
  cases hB : List.dropWhile Char.isWhitespace
      (List.dropWhile Char.isWhitespace l).reverse with
  | nil => simp
  | cons b u =>
      obtain ⟨⟨s, hs⟩, hpb⟩ := dropWhile_eq_cons Char.isWhitespace _ b u hB
      have hA : List.dropWhile Char.isWhitespace l = (u.reverse ++ [b]) ++ s.reverse := by
        have h2 := congrArg List.reverse hs
        simpa using h2
      have hhead : ∀ a t, List.dropWhile Char.isWhitespace l = a :: t →
          Char.isWhitespace a = false :=
        fun a t h => (dropWhile_eq_cons Char.isWhitespace l a t h).2
      have hfix : List.dropWhile Char.isWhitespace (b :: u).reverse = (b :: u).reverse := by
        cases hu : u.reverse with
        | nil =>
            have hrev : (b :: u).reverse = [b] := by simp [hu]
            rw [hrev]
            exact dropWhile_cons_false Char.isWhitespace b [] hpb
        | cons c cs =>
            have hrev : (b :: u).reverse = c :: (cs ++ [b]) := by
              simp [List.reverse_cons, hu]
            have hAc : List.dropWhile Char.isWhitespace l = c :: (cs ++ [b] ++ s.reverse) := by
              rw [hA, hu]; simp
            rw [hrev]
            exact dropWhile_cons_false Char.isWhitespace c _ (hhead _ _ hAc)
      rw [hfix, List.reverse_reverse,
        dropWhile_cons_false Char.isWhitespace b u hpb]

lemma pyStrip_idem (s : String) : pyStrip (pyStrip s) = pyStrip s := by
  unfold pyStrip
  exact congrArg String.mk (pyStripL_idem s.data)

/-- The command line of `startup`, written as one explicit concatenation:
workers exactly when concurrency is set, ramp-up exactly when `ramp_up` is
truthy, then always `--duration` with the running total, the extension
flag, and the script last. -/
lemma build_cmdline_eq (tool_path : String) (load : LoadSpec) (script : String) :
    build_cmdline tool_path load script =
      [tool_path]
        ++ (match load.concurrency with
            | some c => ["--workers", toString c]
            | none => [])
        ++ (if load.ramp_up ≠ 0 then
              ["--ramp-up", toString (⌈dehumanize_time load.hold⌉ : ℤ)]
            else [])
        ++ ["--duration", toString (total_duration load),
            "--use-extension=bzt.resources.molotov_ext", script] := by
  unfold build_cmdline total_duration
  by_cases hr : load.ramp_up ≠ 0 <;> by_cases hh : load.hold ≠ ([] : HumanTime) <;>
    cases load.concurrency <;> simp [hr, hh]

lemma geds_state {fs : FS} {st : MolotovExecutor} {r : List String × MolotovExecutor}
    (h : get_error_diagnostics fs st = .ok r) : r.2 = st := by
  unfold get_error_diagnostics at h
  split at h
  · simp at h
  · split at h
    · simp at h
    · simp only [Except.ok.injEq] at h
      rw [← h]

lemma diag_block_none (fs : FS) (label : String) (d : List String) :
    diag_block fs none label d = .ok d := rfl

lemma diag_block_some_nonempty {fs : FS} {fh : FileHandle} {label : String}
    {d d2 : List String} {c : String} (hread : fs fh.name = some c)
    (hne : pyStrip c ≠ "") (h : diag_block fs (some fh) label d = .ok d2) :
    d2 = d ++ [label ++ pyStrip c] := by
  unfold diag_block fs_open at h
  simp only [hread] at h
  rw [if_pos (by rw [pyStrip_idem]; exact hne)] at h
  simp only [Except.ok.injEq] at h
  exact h.symm

lemma diag_block_some_empty {fs : FS} {fh : FileHandle} {label : String}
    {d : List String} {c : String} (hread : fs fh.name = some c)
    (hempty : pyStrip c = "") : diag_block fs (some fh) label d = .ok d := by
  unfold diag_block fs_open
  simp only [hread]
  rw [if_neg]
  rw [hempty]
  simp [pyStrip, pyStripL]

lemma build_cmdline_last (tool_path : String) (load : LoadSpec) (script : String) :
    (build_cmdline tool_path load script).getLast? = some script := by
  rw [build_cmdline_eq, List.getLast?_append_cons]
  rfl

lemma check_if_installed_false (launch : List String → LaunchOutcome) (tool : Molotov)
    (h : launch [tool.tool_path, "-h"] ≠ .ok) : check_if_installed launch tool = false := by
  unfold check_if_installed
  cases ho : launch [tool.tool_path, "-h"] with
  | ok => exact absurd ho h
  | calledProcessError => rfl
  | osError => rfl

/-! ## Claims -/

/-- C1: for every load specification with non-zero ramp-up, `startup`
computes the `--ramp-up` value as the integer ceiling of the *hold*
duration in seconds (source line 75 reads `load.hold`, not a ramp-up
field), appends `--ramp-up <value>` to the command line, and adds that
value into the running total later passed to `--duration`. -/
theorem ramp_up_arg_is_ceil_of_hold (tool_path script : String) (load : LoadSpec)
    (h : load.ramp_up ≠ 0) :
    build_cmdline tool_path load script =
      [tool_path]
        ++ (match load.concurrency with
            | some c => ["--workers", toString c]
            | none => [])
        ++ ["--ramp-up", toString (⌈dehumanize_time load.hold⌉ : ℤ)]
        ++ ["--duration", toString (total_duration load),
            "--use-extension=bzt.resources.molotov_ext", script]
      ∧ total_duration load =
          ⌈dehumanize_time load.hold⌉ +
            (if load.hold ≠ ([] : HumanTime) then ⌈dehumanize_time load.hold⌉ else 0) := by
  constructor
  · rw [build_cmdline_eq, if_pos h]
  · unfold total_duration
    rw [if_pos h]

theorem ramp_up_arg_is_ceil_of_hold_witness :
    build_cmdline "molotov" load_w1 "test.py" =
      ["molotov"]
        ++ (match load_w1.concurrency with
            | some c => ["--workers", toString c]
            | none => [])
        ++ ["--ramp-up", toString (⌈dehumanize_time load_w1.hold⌉ : ℤ)]
        ++ ["--duration", toString (total_duration load_w1),
            "--use-extension=bzt.resources.molotov_ext", "test.py"]
      ∧ total_duration load_w1 =
          ⌈dehumanize_time load_w1.hold⌉ +
            (if load_w1.hold ≠ ([] : HumanTime) then ⌈dehumanize_time load_w1.hold⌉
             else 0) :=
  ramp_up_arg_is_ceil_of_hold "molotov" "test.py" load_w1 (by decide)

/-- C2: for every scenario with no script configured, `startup` fails with
`TaurusConfigError` ("You must provide script for Molotov"); no command is
produced and no child process is spawned for such a scenario. -/
theorem startup_missing_script_config_error (eng : Engine) (load : LoadSpec)
    (sc : Scenario) (tool_path : String) (new_proc : Proc) (st : MolotovExecutor)
    (h : sc.script = none) :
    startup eng load sc tool_path new_proc st =
      .error ⟨"You must provide script for Molotov"⟩ := by
  unfold startup _get_script
  rw [h]

theorem startup_missing_script_config_error_witness :
    startup eng0 load_c5 sc_none "molotov" proc_running molotov_init =
      .error ⟨"You must provide script for Molotov"⟩ :=
  startup_missing_script_config_error eng0 load_c5 sc_none "molotov" proc_running
    molotov_init rfl

/-- C3: for every poll of `check` where the child has exited non-zero,
`check` raises a `ToolError` whose message carries the exit code and whose
diagnostics are the captured diagnostic text, and that text includes any
non-empty captured stderr content (its labelled, stripped block). -/
theorem check_nonzero_raises_tool_error (fs : FS) (st : MolotovExecutor) (p : Proc)
    (ret_code : ℤ) (diag : List String) (st2 : MolotovExecutor)
    (hp : st.process = some p) (hexit : p.exit_status = some ret_code)
    (hret : ret_code ≠ 0)
    (hdiag : get_error_diagnostics fs st = .ok (diag, st2)) :
    check fs st =
      .error (.tool ⟨"molotov exited with non-zero code: " ++ toString ret_code,
                     some diag⟩)
      ∧ ∀ (fh : FileHandle) (c : String),
          st.stderr_file = some fh → fs fh.name = some c → pyStrip c ≠ "" →
          ("molotov STDERR:\n" ++ pyStrip c) ∈ diag := by
  constructor
  · simp only [check, Proc.poll, hp, hexit, hdiag]
    rw [if_pos hret]
  · intro fh c hfh hc hne
    unfold get_error_diagnostics at hdiag
    cases h1 : diag_block fs st.stdout_file "molotov STDOUT:\n" [] with
    | error e =>
        simp only [h1] at hdiag
        exact Except.noConfusion hdiag
    | ok d =>
        simp only [h1, hfh] at hdiag
        cases h2 : diag_block fs (some fh) "molotov STDERR:\n" d with
        | error e =>
            simp only [h2] at hdiag
            exact Except.noConfusion hdiag
        | ok d2 =>
            simp only [h2, Except.ok.injEq, Prod.mk.injEq] at hdiag
            obtain ⟨hdeq, -⟩ := hdiag
            have hblock := diag_block_some_nonempty hc hne h2
            rw [← hdeq, hblock]
            simp

theorem check_nonzero_raises_tool_error_witness :
    check fs_boom (st_with proc_one) =
      .error (.tool ⟨"molotov exited with non-zero code: " ++ toString (1 : ℤ),
                     some ["molotov STDERR:\n" ++ pyStrip "boom"]⟩)
      ∧ ("molotov STDERR:\n" ++ pyStrip "boom") ∈
          ["molotov STDERR:\n" ++ pyStrip "boom"] := by
  have h := check_nonzero_raises_tool_error fs_boom (st_with proc_one) proc_one 1
    ["molotov STDERR:\n" ++ pyStrip "boom"] (st_with proc_one) rfl rfl (by decide)
    (by rfl)
  exact ⟨h.1, h.2 fh_err "boom" rfl rfl (by decide)⟩

/-- C4: for every load specification and configured script, `startup`
succeeds and its command line is
`<tool> [--workers N] [--ramp-up S] --duration S
--use-extension=bzt.resources.molotov_ext <script>`: workers exactly when
concurrency is specified, ramp-up exactly when ramp-up is truthy,
`--duration` and the extension flag always present, and the resolved
script path last. -/
theorem startup_cmdline_full_shape (eng : Engine) (load : LoadSpec) (sc : Scenario)
    (tool_path script : String) (new_proc : Proc) (st : MolotovExecutor)
    (h : sc.script = some script) :
    ∃ r : StartupOk, startup eng load sc tool_path new_proc st = .ok r
      ∧ r.cmdline =
          [tool_path]
            ++ (match load.concurrency with
                | some c => ["--workers", toString c]
                | none => [])
            ++ (if load.ramp_up ≠ 0 then
                  ["--ramp-up", toString (⌈dehumanize_time load.hold⌉ : ℤ)]
                else [])
            ++ ["--duration", toString (total_duration load),
                "--use-extension=bzt.resources.molotov_ext", eng.find_file script]
      ∧ r.cmdline.getLast? = some (eng.find_file script) := by
  refine ⟨{ cmdline := build_cmdline tool_path load (eng.find_file script),
            env := [("MOLOTOV_TAURUS_REPORT", st.report_file_name)],
            state := { st with process := some new_proc } }, ?_, ?_, ?_⟩
  · unfold startup _get_script
    rw [h]
  · exact build_cmdline_eq _ _ _
  · exact build_cmdline_last _ _ _

theorem startup_cmdline_full_shape_witness :
    ∃ r : StartupOk,
      startup eng0 load_c5 sc_test "molotov" proc_running molotov_init = .ok r
        ∧ r.cmdline =
            ["molotov"]
              ++ (match load_c5.concurrency with
                  | some c => ["--workers", toString c]
                  | none => [])
              ++ (if load_c5.ramp_up ≠ 0 then
                    ["--ramp-up", toString (⌈dehumanize_time load_c5.hold⌉ : ℤ)]
                  else [])
              ++ ["--duration", toString (total_duration load_c5),
                  "--use-extension=bzt.resources.molotov_ext", eng0.find_file "test.py"]
        ∧ r.cmdline.getLast? = some (eng0.find_file "test.py") :=
  startup_cmdline_full_shape eng0 load_c5 sc_test "molotov" "test.py" proc_running
    molotov_init rfl

/-- C5: for the load specification with concurrency 10, ramp-up 0 and hold
`"30s"`, the computed total duration is 30; the built argv is exactly
`[molotov, --workers, 10, --duration, 30, --use-extension=..., test.py]`
(so it contains `--workers 10` and `--duration 30`) and carries no
`--ramp-up` flag. -/
theorem cmdline_concurrency10_hold30s :
    total_duration load_c5 = 30
      ∧ build_cmdline "molotov" load_c5 "test.py" =
          ["molotov", "--workers", "10", "--duration", "30",
           "--use-extension=bzt.resources.molotov_ext", "test.py"]
      ∧ "--ramp-up" ∉ build_cmdline "molotov" load_c5 "test.py" := by
  have h2 : build_cmdline "molotov" load_c5 "test.py" =
      ["molotov", "--workers", "10", "--duration", "30",
       "--use-extension=bzt.resources.molotov_ext", "test.py"] := by
    simp [build_cmdline, load_c5, dehumanize_time, TimeUnit.seconds]
    decide
  refine ⟨?_, h2, ?_⟩
  · simp [total_duration, load_c5, dehumanize_time, TimeUnit.seconds]
  · rw [h2]
    decide

/-- C6: for every call of `check` while the child has not exited
(`poll` yields `none`), `check` returns "not finished" (`false`) with the
executor state returned exactly as it came in: every field unchanged. -/
theorem check_running_not_finished (fs : FS) (st : MolotovExecutor) (p : Proc)
    (hp : st.process = some p) (hrun : p.exit_status = none) :
    check fs st = .ok (false, st) := by
  simp [check, Proc.poll, hp, hrun]

theorem check_running_not_finished_witness :
    check fs_empty (st_with proc_running) = .ok (false, st_with proc_running) :=
  check_running_not_finished fs_empty (st_with proc_running) proc_running rfl rfl

/-- C7: after the child exited with code 0, `check` returns "finished"
(`true`) with the state unchanged, and calling `check` again on the state
it returned again returns "finished" without raising and without changing
state. -/
theorem check_zero_finished_idempotent (fs : FS) (st : MolotovExecutor) (p : Proc)
    (hp : st.process = some p) (hzero : p.exit_status = some 0) :
    check fs st = .ok (true, st)
      ∧ ∀ (b : Bool) (st2 : MolotovExecutor),
          check fs st = .ok (b, st2) → check fs st2 = .ok (true, st2) := by
  have h1 : check fs st = .ok (true, st) := by
    simp [check, Proc.poll, hp, hzero]
  refine ⟨h1, ?_⟩
  intro b st2 h2
  rw [h1] at h2
  simp only [Except.ok.injEq, Prod.mk.injEq] at h2
  obtain ⟨-, h3⟩ := h2
  subst h3
  exact h1

theorem check_zero_finished_idempotent_witness :
    check fs_empty (st_with proc_zero) = .ok (true, st_with proc_zero)
      ∧ ∀ (b : Bool) (st2 : MolotovExecutor),
          check fs_empty (st_with proc_zero) = .ok (b, st2) →
          check fs_empty st2 = .ok (true, st2) :=
  check_zero_finished_idempotent fs_empty (st_with proc_zero) proc_zero rfl rfl

/-- C8: whenever both capture files exist and hold only whitespace (or are
empty), `get_error_diagnostics` returns the empty list; and in every state
the call is read-only — whenever it returns, the executor state it hands
back is the one it was given (so repeated calls agree). -/
theorem diagnostics_whitespace_empty_readonly :
    (∀ (fs : FS) (st : MolotovExecutor) (fh1 fh2 : FileHandle) (c1 c2 : String),
        st.stdout_file = some fh1 → st.stderr_file = some fh2 →
        fs fh1.name = some c1 → fs fh2.name = some c2 →
        pyStrip c1 = "" → pyStrip c2 = "" →
        get_error_diagnostics fs st = .ok ([], st))
      ∧ ∀ (fs : FS) (st : MolotovExecutor) (r : List String × MolotovExecutor),
          get_error_diagnostics fs st = .ok r → r.2 = st := by
  constructor
  · intro fs st fh1 fh2 c1 c2 h1 h2 hr1 hr2 he1 he2
    simp only [get_error_diagnostics, h1, h2, diag_block_some_empty hr1 he1,
      diag_block_some_empty hr2 he2]
  · exact fun fs st r h => geds_state h

theorem diagnostics_whitespace_empty_readonly_witness :
    get_error_diagnostics fs_ws (st_with proc_zero) = .ok ([], st_with proc_zero) :=
  diagnostics_whitespace_empty_readonly.1 fs_ws (st_with proc_zero) fh_out fh_err
    " \n " "\t" rfl rfl rfl rfl (by decide) (by decide)

/-- C9: `check_if_installed` returns `false` on any launch failure of
`<path> -h` (the caught `CalledProcessError`/`OSError`, covering a missing
or non-executable binary) instead of propagating it; `install` always
raises the explicit "must install manually" `ToolError`; hence the
probe-then-install path of `prepare` (`install_required_tools`) fails with
that error whenever the binary is absent. -/
theorem probe_false_and_install_raises :
    (∀ (launch : List String → LaunchOutcome) (tool : Molotov),
        launch [tool.tool_path, "-h"] ≠ .ok → check_if_installed launch tool = false)
      ∧ (∀ tool : Molotov,
          install tool = .error ⟨"You must install molotov tool to use it", none⟩)
      ∧ ∀ (launch : List String → LaunchOutcome) (settings_path : Option String),
          launch [settings_path.getD "molotov", "-h"] ≠ .ok →
          install_required_tools launch settings_path =
            .error ⟨"You must install molotov tool to use it", none⟩ := by
  refine ⟨check_if_installed_false, fun _ => rfl, ?_⟩
  intro launch sp h
  have hf := check_if_installed_false launch { tool_path := sp.getD "molotov" } h
  simp [install_required_tools, hf, install]

theorem probe_false_and_install_raises_witness :
    check_if_installed launch_fail molotov_default = false
      ∧ install molotov_default =
          .error ⟨"You must install molotov tool to use it", none⟩
      ∧ install_required_tools launch_fail none =
          .error ⟨"You must install molotov tool to use it", none⟩ :=
  ⟨probe_false_and_install_raises.1 launch_fail molotov_default (by decide),
   probe_false_and_install_raises.2.1 molotov_default,
   probe_false_and_install_raises.2.2 launch_fail none (by decide)⟩

/-- C10: called before `prepare` has opened the capture files (both
handles still the `None` of `__init__`), `get_error_diagnostics` returns
the empty list without raising: each handle is checked against `None`
before its capture file is read. -/
theorem diagnostics_uninitialized_empty (fs : FS) (st : MolotovExecutor)
    (h1 : st.stdout_file = none) (h2 : st.stderr_file = none) :
    get_error_diagnostics fs st = .ok ([], st) := by
  simp [get_error_diagnostics, h1, h2, diag_block]

theorem diagnostics_uninitialized_empty_witness :
    get_error_diagnostics fs_empty molotov_init = .ok ([], molotov_init) :=
  diagnostics_uninitialized_empty fs_empty molotov_init rfl rfl

end MolotovSpec
